import Mathlib

/-!
Verification of the forecasting core of the FinancialForecastingDemo repository.

Numeric model: Python floats are modelled as exact rationals (`ℚ`), except in
the confidence scorer (`validation_engine.py`) where `np.std` takes a real
square root, so that component is modelled over `ℝ`.  A pandas/numpy division
whose denominator is zero produces a non-finite float (`inf` or `NaN`), never
an exception; where such a value can reach an output we model the field as an
`Option`, with `none` standing for the non-finite value.
-/

namespace RevenueForecaster

/-- Calendar months are encoded as a single index `year * 12 + (month - 1)`,
so that `pd.DateOffset(months = k)` is addition of `k`. -/
def monthOfIndex (d : ℕ) : ℕ := d % 12 + 1

/-- `((date.month - 1) // 3) + 1` from the source. -/
def quarterOfIndex (d : ℕ) : ℕ := (monthOfIndex d - 1) / 3 + 1

def yearOfIndex (d : ℕ) : ℕ := d / 12

/-- The `f"{year}Q{quarter}"` period label of the source. -/
def periodLabel (d : ℕ) : String :=
  toString (yearOfIndex d) ++ "Q" ++ toString (quarterOfIndex d)

/-- A row of `self.historical_data` (`revenue_forecaster.py`). -/
structure HistoricalPoint where
  date : ℕ
  period : String
  revenue : ℚ
  quarter : ℕ
  year : ℕ
deriving DecidableEq

/-- The assumption dict consumed by `forecast_revenue`; `assumptions.get`
with the source defaults is resolved by the caller supplying all five keys,
as every scenario in `scenario_manager.py` does. -/
structure Assumptions where
  growth_rate : ℚ
  seasonal_adjustment : ℚ
  market_share : ℚ
  new_customer_growth : ℚ
  existing_customer_growth : ℚ
deriving DecidableEq

/-- A row of the forecast DataFrame returned by `forecast_revenue`.
`scenarioName` embeds the source column `scenario`. -/
structure ForecastPoint where
  date : ℕ
  period : String
  revenue : ℚ
  quarter : ℕ
  year : ℕ
  scenarioName : String
  is_forecast : Bool
deriving DecidableEq

/-- `RevenueForecaster._calculate_revenue_for_period`. -/
def calculate_revenue_for_period (previous_revenue : ℚ) (a : Assumptions)
    (quarter : ℕ) (period_index : ℕ) : ℚ :=
  let growth_factor := 1 + a.growth_rate / 100
  let seasonal_base := a.seasonal_adjustment / 100
  let seasonal_factor :=
    if quarter = 4 then 1 + seasonal_base
    else if quarter = 1 then 1 - seasonal_base
    else 1 + seasonal_base * (3 / 10)
  let market_factor := 1 + a.market_share / 100
  let new_customer_decay := max (3 / 10) (1 - (period_index : ℚ) * (1 / 10))
  let new_customer_factor := 1 + a.new_customer_growth / 100 * new_customer_decay
  let existing_customer_factor := 1 + a.existing_customer_growth / 100
  max (previous_revenue * growth_factor * seasonal_factor * market_factor *
    new_customer_factor * existing_customer_factor) 0

/-- The `for i in range(1, periods + 1)` loop of `forecast_revenue`:
`fuel` is the number of periods still to emit, `i` the current period index,
`prev` the chained previous revenue.  Each forecast date is
`last_date + 3 * i` months, recomputed from the original last historical
date exactly as in the source. -/
def forecastLoop (lastDate : ℕ) (a : Assumptions) (scen : String) :
    ℕ → ℕ → ℚ → List ForecastPoint
  | 0, _, _ => []
  | fuel + 1, i, prev =>
    let d := lastDate + 3 * i
    let q := quarterOfIndex d
    let rev := calculate_revenue_for_period prev a q i
    { date := d, period := periodLabel d, revenue := rev, quarter := q,
      year := yearOfIndex d, scenarioName := scen, is_forecast := true } ::
      forecastLoop lastDate a scen fuel (i + 1) rev

/-- `RevenueForecaster._create_empty_forecast`; the wall-clock start date of
`pd.date_range(start=datetime.now(), ...)` is passed as `now`. -/
def create_empty_forecast (now : ℕ) (periods : ℕ) : List ForecastPoint :=
  (List.range periods).map fun i =>
    let d := now + 3 * i
    { date := d, period := periodLabel d, revenue := 0,
      quarter := quarterOfIndex d, year := yearOfIndex d,
      scenarioName := "Empty", is_forecast := true }

/-- `RevenueForecaster.forecast_revenue`.  `hist.getLast?` is `none` exactly
when the `self.historical_data is None or len(...) == 0` guard fires. -/
def forecast_revenue (hist : List HistoricalPoint) (a : Assumptions)
    (periods : ℕ) (scen : String) (now : ℕ) : List ForecastPoint :=
  match hist.getLast? with
  | none => create_empty_forecast now periods
  | some last => forecastLoop last.date a scen periods 1 last.revenue

/-- `RevenueForecaster._create_sample_data`: 24 monthly points from 2022-01,
base 10.0, 3% growth per elapsed quarter (`i // 3`), seasonal uplift for Q4
and haircut for Q1, and a random factor `np.random.normal(1.0, 0.05)` which
is modelled as the parameter `rand` (one draw per row). -/
def create_sample_data (rand : ℕ → ℚ) : List HistoricalPoint :=
  (List.range 24).map fun i =>
    let d := 2022 * 12 + i
    let growth_factor : ℚ := (1 + 3 / 100) ^ (i / 3)
    let q := quarterOfIndex d
    let seasonal_factor : ℚ :=
      1 + (if q = 4 then 15 / 100 else 0) - (if q = 1 then 1 / 10 else 0)
    { date := d, period := periodLabel d,
      revenue := 10 * growth_factor * seasonal_factor * rand i,
      quarter := q, year := yearOfIndex d }

/-- `RevenueForecaster.__init__`: the raw-row extraction path
`_extract_historical_revenue` (taken only for a non-empty input) is supplied
as the parameter `extract`; only the emptiness dispatch is at issue here. -/
def initHistoricalData {α : Type} (extract : List α → List HistoricalPoint)
    (rand : ℕ → ℚ) : Option (List α) → List HistoricalPoint
  | some d => if 0 < d.length then extract d else create_sample_data rand
  | none => create_sample_data rand

/-- Every point emitted by the forecast loop has revenue of the form
`max _ 0`, hence non-negative. -/
lemma forecastLoop_revenue_nonneg (lastDate : ℕ) (a : Assumptions)
    (scen : String) :
    ∀ (fuel i : ℕ) (prev : ℚ), ∀ p ∈ forecastLoop lastDate a scen fuel i prev,
      0 ≤ p.revenue := by
  intro fuel
  induction fuel with
  | zero => intro i prev p hp; simp [forecastLoop] at hp
  | succ n ih =>
    intro i prev p hp
    simp only [forecastLoop, List.mem_cons] at hp
    rcases hp with h | h
    · subst h
      exact le_max_right _ _
    · exact ih (i + 1) _ p h

/-- The concrete 4-quarter historical series `[100, 102, 98, 110]` of the
spec's worked scenario (quarters 1–4 of 2023). -/
def hist4 : List HistoricalPoint :=
  [ { date := 2023 * 12, period := "2023Q1", revenue := 100, quarter := 1, year := 2023 },
    { date := 2023 * 12 + 3, period := "2023Q2", revenue := 102, quarter := 2, year := 2023 },
    { date := 2023 * 12 + 6, period := "2023Q3", revenue := 98, quarter := 3, year := 2023 },
    { date := 2023 * 12 + 9, period := "2023Q4", revenue := 110, quarter := 4, year := 2023 } ]

/-- The assumptions of the spec's worked scenario. -/
def a4 : Assumptions :=
  { growth_rate := 5, seasonal_adjustment := 0, market_share := 0,
    new_customer_growth := 0, existing_customer_growth := 0 }

end RevenueForecaster

open RevenueForecaster in
/-- C4: with history `[100,102,98,110]` (quarters 1–4 of 2023) and
assumptions growth_rate=5, all other levers 0, forecasting one period yields
exactly one point, for quarter 1 of 2024, with revenue `231/2 = 115.5`. -/
theorem C4_forecast_single_period :
    forecast_revenue hist4 a4 1 "Base Case" 0 =
      [ { date := 2024 * 12, period := "2024Q1", revenue := 231 / 2,
          quarter := 1, year := 2024, scenarioName := "Base Case",
          is_forecast := true } ] := by
  rw [show (231 : ℚ) / 2 = calculate_revenue_for_period 110 a4 1 1 from by
    norm_num [calculate_revenue_for_period, a4]]
  rfl

open RevenueForecaster in
/-- C5: for every non-empty historical series, all assumptions and any
number of periods, every produced forecast point has non-negative revenue. -/
theorem C5_forecast_revenue_nonneg (hist : List HistoricalPoint)
    (a : Assumptions) (periods : ℕ) (scen : String) (now : ℕ)
    (hne : hist ≠ []) :
    ∀ p ∈ forecast_revenue hist a periods scen now, 0 ≤ p.revenue := by
  intro p hp
  unfold forecast_revenue at hp
  rcases h : hist.getLast? with _ | last
  · exact absurd (List.getLast?_eq_none_iff.mp h) hne
  · rw [h] at hp
    exact forecastLoop_revenue_nonneg _ _ _ _ _ _ p hp

open RevenueForecaster in
/-- Witness for C5 at the spec's concrete scenario. -/
theorem C5_forecast_revenue_nonneg_witness :
    0 ≤ ({ date := 2024 * 12, period := "2024Q1", revenue := 231 / 2,
           quarter := 1, year := 2024, scenarioName := "Base Case",
           is_forecast := true } : ForecastPoint).revenue := by
  apply C5_forecast_revenue_nonneg hist4 a4 1 "Base Case" 0 (by decide)
  rw [show forecast_revenue hist4 a4 1 "Base Case" 0 =
      [ { date := 2024 * 12, period := "2024Q1", revenue := 231 / 2,
          quarter := 1, year := 2024, scenarioName := "Base Case",
          is_forecast := true } ] from by
    rw [show (231 : ℚ) / 2 = calculate_revenue_for_period 110 a4 1 1 from by
      norm_num [calculate_revenue_for_period, a4]]
    rfl]
  exact List.mem_singleton.mpr rfl

open RevenueForecaster in
/-- C3 counterexample: on a zero-row input the builder returns the 24-point
synthetic sample series, not an empty series. -/
theorem C3_counterexample :
    initHistoricalData (fun _ : List Unit => []) (fun _ => 1) (some []) ≠ [] := by
  decide

namespace MasterAssumptions

/-- `RiskFactor` dataclass of `master_assumptions.py`. -/
structure RiskFactor where
  name : String
  category : String
  impact_type : String
  base_value : ℚ
  min_value : ℚ
  max_value : ℚ
  description : String
  applies_to : List String
deriving DecidableEq

/-- The per-factor `risk_value` selection of `_apply_risk_scenario`. -/
def riskValue (rf : RiskFactor) (scenario_type : String) : ℚ :=
  if scenario_type = "optimistic" then
    if rf.impact_type = "multiplier" then rf.min_value else rf.max_value
  else if scenario_type = "pessimistic" then
    if rf.impact_type = "multiplier" ∧ rf.max_value < 1 then rf.max_value
    else rf.min_value
  else rf.base_value

/-- One application step of `_apply_risk_scenario` to a revenue cell; an
`impact_type` outside the three known strings leaves the cell unchanged,
as the source's if/elif chain does. -/
def applyRiskFactor (rev : ℚ) (rf : RiskFactor) (scenario_type : String) : ℚ :=
  let rv := riskValue rf scenario_type
  if rf.impact_type = "multiplier" then rev * rv
  else if rf.impact_type = "additive" then rev * (1 + rv)
  else if rf.impact_type = "probability" then rev * (1 - rv * (1 / 2))
  else rev

/-- `MasterAssumptionsEngine._apply_risk_scenario`, acting on the `revenue`
column of the forecast (the only column the transform touches). -/
def apply_risk_scenario (revenues : List ℚ) (risk_factors : List RiskFactor)
    (scenario_type : String) : List ℚ :=
  risk_factors.foldl
    (fun acc rf => acc.map fun r => applyRiskFactor r rf scenario_type) revenues

/-- A row of a perspective forecast as consumed by `reconcile_forecasts`
(the three required columns `year`, `month`, `revenue`). -/
structure FRow where
  year : ℤ
  month : ℤ
  revenue : ℚ
deriving DecidableEq

/-- The distinct `(year, month)` keys of a forecast.  pandas' `groupby`
emits groups in sorted key order; the properties verified below do not
depend on the record order, so encounter order is used. -/
def aggKeys (rows : List FRow) : List (ℤ × ℤ) :=
  (rows.map fun r => (r.year, r.month)).dedup

/-- `groupby(['year','month'])['revenue'].sum()` for one key. -/
def sumForKey (rows : List FRow) (k : ℤ × ℤ) : ℚ :=
  ((rows.filter fun r => (r.year, r.month) = k).map fun r => r.revenue).sum

/-- The grouped aggregation of one perspective forecast. -/
def groupAgg (rows : List FRow) : List ((ℤ × ℤ) × ℚ) :=
  (aggKeys rows).map fun k => (k, sumForKey rows k)

def lookupKey (l : List ((ℤ × ℤ) × ℚ)) (k : ℤ × ℤ) : Option ℚ :=
  (l.find? fun p => p.1 = k).map Prod.snd

/-- A row of the `reconciliation` DataFrame.  `variance_pct` is the pandas
division `variance_abs / revenue_finance * 100`: when the denominator is
zero pandas produces a non-finite float (`inf`, or `NaN` for `0/0`), which
is modelled as `none`. -/
structure ReconRecord where
  year : ℤ
  month : ℤ
  revenue_finance : ℚ
  revenue_sales : ℚ
  variance_abs : ℚ
  variance_pct : Option ℚ
  reconciled_revenue : ℚ
deriving DecidableEq

/-- The per-merged-row record construction of `reconcile_forecasts`,
including the reconciliation-method dispatch: any method string other than
`finance_priority` and `sales_priority` falls into the `else` branch, which
is the weighted average. -/
def mkReconRecord (method : String) (finance_weight : ℚ) (k : ℤ × ℤ)
    (f s : ℚ) : ReconRecord :=
  { year := k.1, month := k.2, revenue_finance := f, revenue_sales := s,
    variance_abs := s - f,
    variance_pct := if f = 0 then none else some ((s - f) / f * 100),
    reconciled_revenue :=
      if method = "finance_priority" then f
      else if method = "sales_priority" then s
      else f * finance_weight + s * (1 - finance_weight) }

/-- The result dict of `reconcile_forecasts` (the variance-analysis summary
is omitted; no claim below touches it). -/
structure ReconcileResult where
  reconciliation : List ReconRecord
  finance_total : ℚ
  sales_total : ℚ
  reconciled_total : ℚ
deriving DecidableEq

/-- `_empty_reconciliation_result` (its reconciliation DataFrame is empty
and all totals are zero). -/
def emptyReconciliationResult : ReconcileResult :=
  { reconciliation := [], finance_total := 0, sales_total := 0,
    reconciled_total := 0 }

/-- `MasterAssumptionsEngine.reconcile_forecasts`.  The three required
columns always exist in this typed embedding, so the column check never
fires; the emptiness guards are kept.  `method` and `finance_weight` are
the fields read from `self.assumptions`. -/
def reconcile_forecasts (finance_forecast sales_forecast : List FRow)
    (method : String) (finance_weight : ℚ) : ReconcileResult :=
  if finance_forecast.isEmpty ∨ sales_forecast.isEmpty then
    emptyReconciliationResult
  else
    let finance_agg := groupAgg finance_forecast
    let sales_agg := groupAgg sales_forecast
    if finance_agg.isEmpty ∨ sales_agg.isEmpty then emptyReconciliationResult
    else
      let merged := finance_agg.filterMap fun p =>
        (lookupKey sales_agg p.1).map fun s => (p.1, p.2, s)
      if merged.isEmpty then emptyReconciliationResult
      else
        let recs := merged.map fun t =>
          mkReconRecord method finance_weight t.1 t.2.1 t.2.2
        { reconciliation := recs,
          finance_total := (finance_agg.map Prod.snd).sum,
          sales_total := (sales_agg.map Prod.snd).sum,
          reconciled_total := (recs.map fun r => r.reconciled_revenue).sum }

/-- Every record of a reconciliation result is some `mkReconRecord`. -/
lemma mem_reconciliation {finance_forecast sales_forecast : List FRow}
    {method : String} {w : ℚ} {r : ReconRecord}
    (hr : r ∈ (reconcile_forecasts finance_forecast sales_forecast
      method w).reconciliation) :
    ∃ k f s, r = mkReconRecord method w k f s := by
  simp only [reconcile_forecasts] at hr
  split at hr
  · simp [emptyReconciliationResult] at hr
  · split at hr
    · simp [emptyReconciliationResult] at hr
    · split at hr
      · simp [emptyReconciliationResult] at hr
      · simp only [List.mem_map] at hr
        obtain ⟨t, _, ht⟩ := hr
        exact ⟨t.1, t.2.1, t.2.2, ht.symm⟩

/-- Evaluation of `reconcile_forecasts` on two single-row forecasts sharing
one period. -/
lemma reconcile_forecasts_single (y m : ℤ) (f s : ℚ) (method : String)
    (w : ℚ) :
    reconcile_forecasts [{ year := y, month := m, revenue := f }]
      [{ year := y, month := m, revenue := s }] method w =
      { reconciliation := [mkReconRecord method w (y, m) f s],
        finance_total := f, sales_total := s,
        reconciled_total :=
          (mkReconRecord method w (y, m) f s).reconciled_revenue } := by
  simp [reconcile_forecasts, groupAgg, aggKeys, sumForKey, lookupKey,
    List.filter, List.find?]

/-- Single-row forecasts used for the concrete counterexamples. -/
def finZero : List FRow := [{ year := 2024, month := 1, revenue := 0 }]

def salThirty : List FRow := [{ year := 2024, month := 1, revenue := 30 }]

def finHundred : List FRow := [{ year := 2024, month := 1, revenue := 100 }]

def salOneThirty : List FRow := [{ year := 2024, month := 1, revenue := 130 }]

/-- A built-in multiplier risk factor at its neutral base value 1.0
(`Market Volatility` from `_initialize_default_risk_factors`). -/
def neutralFactor : RiskFactor :=
  { name := "Market Volatility", category := "market",
    impact_type := "multiplier", base_value := 1, min_value := 7 / 10,
    max_value := 13 / 10,
    description := "General market conditions affecting revenue",
    applies_to := ["all"] }

end MasterAssumptions

open MasterAssumptions in
/-- C1 counterexample: with finance revenue 0 and sales revenue 30 for the
same period, the produced record's variance_pct is the unguarded pandas
division by zero (a non-finite value, modelled `none`), not 0. -/
theorem C1_counterexample :
    (reconcile_forecasts finZero salThirty "weighted_average"
      (3 / 5)).reconciliation =
      [ { year := 2024, month := 1, revenue_finance := 0, revenue_sales := 30,
          variance_abs := 30, variance_pct := none,
          reconciled_revenue := 12 } ] := by
  rw [show finZero = [{ year := 2024, month := 1, revenue := 0 }] from rfl,
    show salThirty = [{ year := 2024, month := 1, revenue := 30 }] from rfl,
    reconcile_forecasts_single]
  norm_num [mkReconRecord]
  simp

open MasterAssumptions in
/-- C1 (amended): the division `variance_abs / finance_revenue` is not
guarded: whenever a record's finance revenue is zero its variance_pct is
the non-finite result of a pandas division by zero (`none` in this model)
rather than 0, and otherwise it is the plain quotient times 100. -/
theorem C1_variance_pct_unguarded (finance_forecast sales_forecast : List FRow)
    (method : String) (w : ℚ) (r : ReconRecord)
    (hr : r ∈ (reconcile_forecasts finance_forecast sales_forecast
      method w).reconciliation) :
    (r.revenue_finance = 0 → r.variance_pct = none) ∧
    (r.revenue_finance ≠ 0 →
      r.variance_pct = some (r.variance_abs / r.revenue_finance * 100)) := by
  obtain ⟨k, f, s, rfl⟩ := mem_reconciliation hr
  constructor <;> intro hf <;> simp_all [mkReconRecord]

open MasterAssumptions in
/-- Witness for C1 at the concrete zero-denominator record. -/
theorem C1_variance_pct_unguarded_witness :
    ((mkReconRecord "weighted_average" (3 / 5) (2024, 1) 0 30).revenue_finance
        = 0 →
      (mkReconRecord "weighted_average" (3 / 5) (2024, 1) 0 30).variance_pct
        = none) ∧
    ((mkReconRecord "weighted_average" (3 / 5) (2024, 1) 0 30).revenue_finance
        ≠ 0 →
      (mkReconRecord "weighted_average" (3 / 5) (2024, 1) 0 30).variance_pct
        = some ((mkReconRecord "weighted_average" (3 / 5) (2024, 1) 0
            30).variance_abs /
          (mkReconRecord "weighted_average" (3 / 5) (2024, 1) 0
            30).revenue_finance * 100)) :=
  C1_variance_pct_unguarded finZero salThirty "weighted_average" (3 / 5) _
    (by rw [show finZero = [{ year := 2024, month := 1, revenue := 0 }] from
        rfl,
      show salThirty = [{ year := 2024, month := 1, revenue := 30 }] from rfl,
      reconcile_forecasts_single]
        exact List.mem_singleton.mpr rfl)

open MasterAssumptions in
/-- C2 counterexample: the unknown method string `"bogus_method"` is not
rejected; reconciliation proceeds and returns exactly the weighted-average
result (reconciled revenue 112 for finance 100 / sales 130). -/
theorem C2_counterexample :
    reconcile_forecasts finHundred salOneThirty "bogus_method" (3 / 5) =
      reconcile_forecasts finHundred salOneThirty "weighted_average" (3 / 5) ∧
    (reconcile_forecasts finHundred salOneThirty "bogus_method"
      (3 / 5)).reconciliation =
      [ { year := 2024, month := 1, revenue_finance := 100,
          revenue_sales := 130, variance_abs := 30, variance_pct := some 30,
          reconciled_revenue := 112 } ] := by
  rw [show finHundred = [{ year := 2024, month := 1, revenue := 100 }] from
      rfl,
    show salOneThirty = [{ year := 2024, month := 1, revenue := 130 }] from
      rfl,
    reconcile_forecasts_single, reconcile_forecasts_single]
  norm_num [mkReconRecord]
  constructor <;> simp

open MasterAssumptions in
/-- C2 (amended): a reconciliation_method string other than
`finance_priority` and `sales_priority` is not rejected: it silently falls
into the `else` branch and produces the `weighted_average` reconciliation. -/
theorem C2_unknown_method_not_rejected (finance_forecast sales_forecast :
      List FRow) (m : String) (w : ℚ)
    (h1 : m ≠ "finance_priority") (h2 : m ≠ "sales_priority") :
    reconcile_forecasts finance_forecast sales_forecast m w =
      reconcile_forecasts finance_forecast sales_forecast
        "weighted_average" w := by
  have hfn : mkReconRecord m w = mkReconRecord "weighted_average" w := by
    funext k f s
    simp [mkReconRecord, h1, h2]
  simp only [reconcile_forecasts, hfn]

open MasterAssumptions in
/-- Witness for C2 with the unknown method string `"bogus_method"`. -/
theorem C2_unknown_method_not_rejected_witness :
    reconcile_forecasts finHundred salOneThirty "bogus_method" (1 / 2) =
      reconcile_forecasts finHundred salOneThirty "weighted_average"
        (1 / 2) :=
  C2_unknown_method_not_rejected finHundred salOneThirty "bogus_method"
    (1 / 2) (by decide) (by decide)

open MasterAssumptions in
/-- C6: for the weighted_average method with finance weight in [0,1],
every record's reconciled revenue lies between the finance and sales
revenues. -/
theorem C6_weighted_average_bounds (finance_forecast sales_forecast :
      List FRow) (w : ℚ) (r : ReconRecord) (hw0 : 0 ≤ w) (hw1 : w ≤ 1)
    (hr : r ∈ (reconcile_forecasts finance_forecast sales_forecast
      "weighted_average" w).reconciliation) :
    min r.revenue_finance r.revenue_sales ≤ r.reconciled_revenue ∧
      r.reconciled_revenue ≤ max r.revenue_finance r.revenue_sales := by
  obtain ⟨k, f, s, rfl⟩ := mem_reconciliation hr
  have hrec : (mkReconRecord "weighted_average" w k f s).reconciled_revenue
      = f * w + s * (1 - w) := by simp [mkReconRecord]
  have hrf : (mkReconRecord "weighted_average" w k f s).revenue_finance = f :=
    rfl
  have hrs : (mkReconRecord "weighted_average" w k f s).revenue_sales = s :=
    rfl
  rw [hrec, hrf, hrs]
  constructor
  · rcases le_total f s with h | h
    · rw [min_eq_left h]; nlinarith
    · rw [min_eq_right h]; nlinarith
  · rcases le_total f s with h | h
    · rw [max_eq_right h]; nlinarith
    · rw [max_eq_left h]; nlinarith

open MasterAssumptions in
/-- Witness for C6 at finance 100 / sales 130, weight 0.6. -/
theorem C6_weighted_average_bounds_witness :
    min (mkReconRecord "weighted_average" (3 / 5) (2024, 1) 100
        130).revenue_finance
      (mkReconRecord "weighted_average" (3 / 5) (2024, 1) 100
        130).revenue_sales ≤
      (mkReconRecord "weighted_average" (3 / 5) (2024, 1) 100
        130).reconciled_revenue ∧
    (mkReconRecord "weighted_average" (3 / 5) (2024, 1) 100
        130).reconciled_revenue ≤
      max (mkReconRecord "weighted_average" (3 / 5) (2024, 1) 100
          130).revenue_finance
        (mkReconRecord "weighted_average" (3 / 5) (2024, 1) 100
          130).revenue_sales :=
  C6_weighted_average_bounds finHundred salOneThirty (3 / 5) _
    (by norm_num) (by norm_num)
    (by rw [show finHundred = [{ year := 2024, month := 1, revenue := 100 }]
        from rfl,
      show salOneThirty = [{ year := 2024, month := 1, revenue := 130 }] from
        rfl,
      reconcile_forecasts_single]
        exact List.mem_singleton.mpr rfl)

open MasterAssumptions in
/-- C7: under `finance_priority` every record reconciles to the finance
revenue; under `sales_priority`, to the sales revenue. -/
theorem C7_priority_methods (finance_forecast sales_forecast : List FRow)
    (w : ℚ) (r : ReconRecord) :
    (r ∈ (reconcile_forecasts finance_forecast sales_forecast
        "finance_priority" w).reconciliation →
      r.reconciled_revenue = r.revenue_finance) ∧
    (r ∈ (reconcile_forecasts finance_forecast sales_forecast
        "sales_priority" w).reconciliation →
      r.reconciled_revenue = r.revenue_sales) := by
  constructor <;> intro hr <;> obtain ⟨k, f, s, rfl⟩ := mem_reconciliation hr <;>
    simp [mkReconRecord]

open MasterAssumptions in
/-- Witness for C7 at finance 100 / sales 130. -/
theorem C7_priority_methods_witness :
    ((mkReconRecord "finance_priority" (3 / 5) (2024, 1) 100 130) ∈
        (reconcile_forecasts finHundred salOneThirty "finance_priority"
          (3 / 5)).reconciliation →
      (mkReconRecord "finance_priority" (3 / 5) (2024, 1) 100
          130).reconciled_revenue =
        (mkReconRecord "finance_priority" (3 / 5) (2024, 1) 100
          130).revenue_finance) ∧
    ((mkReconRecord "finance_priority" (3 / 5) (2024, 1) 100 130) ∈
        (reconcile_forecasts finHundred salOneThirty "sales_priority"
          (3 / 5)).reconciliation →
      (mkReconRecord "finance_priority" (3 / 5) (2024, 1) 100
          130).reconciled_revenue =
        (mkReconRecord "finance_priority" (3 / 5) (2024, 1) 100
          130).revenue_sales) :=
  C7_priority_methods finHundred salOneThirty (3 / 5) _

open MasterAssumptions in
/-- C8: applying the risk-scenario transform with scenario_type
`most_likely` leaves every revenue unchanged when all applied risk factors
are multipliers with base value 1.0. -/
theorem C8_most_likely_neutral (revenues : List ℚ)
    (risk_factors : List RiskFactor)
    (h : ∀ rf ∈ risk_factors,
      rf.impact_type = "multiplier" ∧ rf.base_value = 1) :
    apply_risk_scenario revenues risk_factors "most_likely" = revenues := by
  induction risk_factors generalizing revenues with
  | nil => rfl
  | cons rf rest ih =>
    have hrf := h rf (List.mem_cons_self _ _)
    have hpt : ∀ r : ℚ, applyRiskFactor r rf "most_likely" = r := fun r => by
      simp [applyRiskFactor, riskValue, hrf.1, hrf.2]
    have hstep :
        (revenues.map fun r => applyRiskFactor r rf "most_likely") =
          revenues := by
      simp [hpt]
    have hunfold : apply_risk_scenario revenues (rf :: rest) "most_likely" =
        apply_risk_scenario
          (revenues.map fun r => applyRiskFactor r rf "most_likely") rest
          "most_likely" := rfl
    rw [hunfold, hstep]
    exact ih revenues (fun x hx => h x (List.mem_cons_of_mem _ hx))

open MasterAssumptions in
/-- Witness for C8 on one revenue cell and the neutral built-in factor. -/
theorem C8_most_likely_neutral_witness :
    apply_risk_scenario [100] [neutralFactor] "most_likely" = [100] :=
  C8_most_likely_neutral [100] [neutralFactor] (by decide)

open RevenueForecaster in
/-- C3 (amended): for a zero-row (or absent) input the builder does not
raise and does not return an empty series: it substitutes the synthetic
24-point sample series. -/
theorem C3_zero_rows_sample_series {α : Type}
    (extract : List α → List HistoricalPoint) (rand : ℕ → ℚ) :
    initHistoricalData extract rand (some ([] : List α)) = create_sample_data rand
      ∧ initHistoricalData extract rand none = create_sample_data rand
      ∧ (create_sample_data rand).length = 24 := by
  refine ⟨rfl, rfl, ?_⟩
  simp [create_sample_data]


namespace ScenarioManager

/-- The per-scenario record held in `st.session_state.scenarios`
(`scenario_manager.py`): creation time is irrelevant to the verified
properties and is omitted; assumptions are a keyed record of rationals. -/
structure ScenarioData where
  description : String
  assumptions : List (String × ℚ)
deriving DecidableEq

/-- The session state of the scenario store: the `scenarios` dict (an
association list keyed by scenario name) and `active_scenario`. -/
structure ScenarioState where
  scenarios : List (String × ScenarioData)
  active : String
deriving DecidableEq

/-- The key set of a scenarios dict. -/
def keysOf (l : List (String × ScenarioData)) : List String := l.map Prod.fst

/-- The keys of the store. -/
def keys (s : ScenarioState) : List String := keysOf s.scenarios

/-- `ScenarioManager.delete_scenario`. -/
def delete_scenario (s : ScenarioState) (name : String) :
    (Bool × String) × ScenarioState :=
  if name = "Base Case" then
    ((false, "Cannot delete Base Case scenario"), s)
  else if ¬ name ∈ keys s then
    ((false, "Scenario '" ++ name ++ "' does not exist"), s)
  else
    ((true, "Scenario '" ++ name ++ "' deleted"),
      { scenarios := s.scenarios.filter fun p => p.1 ≠ name,
        active := if s.active = name then "Base Case" else s.active })

/-- `ScenarioManager.set_active_scenario`. -/
def set_active_scenario (s : ScenarioState) (name : String) :
    Bool × ScenarioState :=
  if name ∈ keys s then (true, { s with active := name }) else (false, s)

/-- The store invariant: `Base Case` is present and the active scenario is
a key of the store. -/
def Invariant (s : ScenarioState) : Prop :=
  "Base Case" ∈ keys s ∧ s.active ∈ keys s

lemma mem_keysOf_filter {l : List (String × ScenarioData)} {x n : String}
    (hx : x ∈ keysOf l) (hne : x ≠ n) :
    x ∈ keysOf (l.filter fun p => p.1 ≠ n) := by
  simp only [keysOf, List.mem_map] at hx ⊢
  obtain ⟨p, hp, rfl⟩ := hx
  exact ⟨p, List.mem_filter.mpr ⟨hp, by simpa using hne⟩, rfl⟩

/-- A concrete two-scenario store for the witness. -/
def baseCaseData : ScenarioData :=
  { description := "Base case revenue forecast", assumptions := [] }

def optimisticData : ScenarioData :=
  { description := "Aggressive growth scenario", assumptions := [] }

def demoState : ScenarioState :=
  { scenarios := [("Base Case", baseCaseData), ("Optimistic", optimisticData)],
    active := "Optimistic" }

end ScenarioManager

open ScenarioManager in
/-- C10: the store keeps the active scenario a key of the store:
deleting `Base Case` fails and leaves the state unchanged, deleting the
active scenario resets the active scenario to `Base Case`, setting an
unknown active scenario fails and leaves the state unchanged, and both
operations preserve the invariant. -/
theorem C10_active_scenario_invariant (s : ScenarioState) (name : String)
    (hs : Invariant s) :
    delete_scenario s "Base Case" =
      ((false, "Cannot delete Base Case scenario"), s) ∧
    (s.active = name → name ≠ "Base Case" → name ∈ keys s →
      (delete_scenario s name).2.active = "Base Case") ∧
    (¬ name ∈ keys s → set_active_scenario s name = (false, s)) ∧
    Invariant (delete_scenario s name).2 ∧
    Invariant (set_active_scenario s name).2 := by
  obtain ⟨hbase, hact⟩ := hs
  refine ⟨by simp [delete_scenario], ?_, ?_, ?_, ?_⟩
  · intro h1 h2 h3
    simp [delete_scenario, if_neg h2, h3, h1]
  · intro h
    simp [set_active_scenario, h]
  · unfold delete_scenario
    split
    · exact ⟨hbase, hact⟩
    · split
      · exact ⟨hbase, hact⟩
      · rename_i hnb hnm
        rw [not_not] at hnm
        constructor
        · exact mem_keysOf_filter hbase (fun hc => hnb hc.symm)
        · show (if s.active = name then "Base Case" else s.active) ∈
            keysOf (s.scenarios.filter fun p => p.1 ≠ name)
          split
          · exact mem_keysOf_filter hbase (fun hc => hnb hc.symm)
          · rename_i hne
            exact mem_keysOf_filter hact hne
  · unfold set_active_scenario
    split
    · rename_i hin
      exact ⟨hbase, hin⟩
    · exact ⟨hbase, hact⟩

open ScenarioManager in
/-- Witness for C10 on a concrete two-scenario store with the non-default
scenario active. -/
theorem C10_active_scenario_invariant_witness :
    delete_scenario demoState "Base Case" =
      ((false, "Cannot delete Base Case scenario"), demoState) ∧
    (demoState.active = "Optimistic" → "Optimistic" ≠ "Base Case" →
      "Optimistic" ∈ keys demoState →
      (delete_scenario demoState "Optimistic").2.active = "Base Case") ∧
    (¬ "Optimistic" ∈ keys demoState →
      set_active_scenario demoState "Optimistic" = (false, demoState)) ∧
    Invariant (delete_scenario demoState "Optimistic").2 ∧
    Invariant (set_active_scenario demoState "Optimistic").2 :=
  C10_active_scenario_invariant demoState "Optimistic" ⟨by decide, by decide⟩

namespace ValidationEngine

noncomputable section

open Classical in
/-- `revenue_values[revenue_values > 0]`: the strictly positive entries,
in order. -/
def positives : List ℝ → List ℝ
  | [] => []
  | x :: xs => if 0 < x then x :: positives xs else positives xs

/-- Python's builtin `max` over a non-empty sequence (the source only
applies it under a `len > 1` guard, so the `[]` case is unreachable). -/
def listMax : List ℝ → ℝ
  | [] => 0
  | x :: xs => xs.foldl max x

/-- `np.mean`. -/
def mean (xs : List ℝ) : ℝ := xs.sum / xs.length

/-- `np.std` (population standard deviation, numpy's default `ddof=0`). -/
def npStd (xs : List ℝ) : ℝ :=
  Real.sqrt ((xs.map fun x => (x - mean xs) ^ 2).sum / xs.length)

/-- A row of `monthly_df` as read by `_calculate_scenario_confidence`
(the columns `period`, `revenue`, `project_id`). -/
structure MonthlyRow where
  period : String
  revenue : ℝ
  project_id : String

/-- The `scenario_data` argument: the `revenue_adjusted` column of its
`monthly_totals` frame, and its `multiplier`. -/
structure ScenarioInput where
  monthly_totals : List ℝ
  multiplier : ℝ

/-- Factor 1, data coverage: `min((periods_with_data /
max(total_possible_periods, 1)) * 100, 100)`. -/
def data_coverage (df : List MonthlyRow) (sd : ScenarioInput) : ℝ :=
  min (((sd.monthly_totals.length : ℝ) /
    ((max ((df.map fun r => r.period).dedup.length) 1 : ℕ) : ℝ)) * 100) 100

open Classical in
/-- Factor 2, data consistency: `max(0, 100 - cv * 50)` with
`cv = std / mean` of the positive revenues, or the neutral 50 when fewer
than two positive values exist. -/
def data_consistency (df : List MonthlyRow) : ℝ :=
  let nz := positives (df.map fun r => r.revenue)
  if 1 < nz.length then max 0 (100 - npStd nz / mean nz * 50) else 50

open Classical in
/-- Factor 3, temporal distribution: `max(0, 100 - max_concentration *
100)` with `max_concentration = max(values) / sum(values)` when more than
one monthly total exists, else 30.  When the sum is zero numpy produces a
non-finite quotient and Python's `max(0, ...)` then returns 0 (for `nan`
the comparison is false; for the reachable `max > 0` case the quotient is
`inf` and `100 - inf*100 = -inf`), so that case is written out as 0. -/
def temporal_distribution (sd : ScenarioInput) : ℝ :=
  if 1 < sd.monthly_totals.length then
    if sd.monthly_totals.sum = 0 then 0
    else max 0 (100 - listMax sd.monthly_totals / sd.monthly_totals.sum * 100)
  else 30

open Classical in
/-- Factor 4, project diversity: `min(unique_projects / total_records *
200, 100)` when any records exist, else 0. -/
def project_diversity (df : List MonthlyRow) : ℝ :=
  if 0 < df.length then
    min ((((df.map fun r => r.project_id).dedup.length : ℝ) /
      (df.length : ℝ)) * 200) 100
  else 0

open Classical in
/-- Factor 5, scenario reasonableness. -/
def scenario_reasonableness (sd : ScenarioInput) : ℝ :=
  if 1 / 2 ≤ sd.multiplier ∧ sd.multiplier ≤ 2 then
    100 - |1 - sd.multiplier| * 50
  else max 0 (50 - |1 - sd.multiplier| * 25)

/-- The weighted overall confidence (weights 0.25/0.25/0.20/0.15/0.15). -/
def overall_confidence (df : List MonthlyRow) (sd : ScenarioInput) : ℝ :=
  data_coverage df sd * (25 / 100) + data_consistency df * (25 / 100) +
    temporal_distribution sd * (20 / 100) +
    project_diversity df * (15 / 100) +
    scenario_reasonableness sd * (15 / 100)

open Classical in
/-- Round-half-to-even to an integer, the rounding of Python's builtin
`round`. -/
def roundHalfEven (x : ℝ) : ℤ :=
  if x - ⌊x⌋ < 1 / 2 then ⌊x⌋
  else if 1 / 2 < x - ⌊x⌋ then ⌊x⌋ + 1
  else if Even ⌊x⌋ then ⌊x⌋ else ⌊x⌋ + 1

/-- Python `round(x, 1)`. -/
def pyRound1 (x : ℝ) : ℝ := (roundHalfEven (x * 10) : ℝ) / 10

/-- The returned `overall_score`: `round(overall_confidence, 1)`. -/
def overall_score (df : List MonthlyRow) (sd : ScenarioInput) : ℝ :=
  pyRound1 (overall_confidence df sd)

open Classical in
/-- `_get_confidence_grade`. -/
def get_confidence_grade (score : ℝ) : String :=
  if 90 ≤ score then "A+ (Excellent)"
  else if 80 ≤ score then "A (Very High)"
  else if 70 ≤ score then "B (High)"
  else if 60 ≤ score then "C (Moderate)"
  else if 50 ≤ score then "D (Low)"
  else "F (Very Low)"

/-- The ordinal position of each grade label, F lowest, A+ highest. -/
def gradeOrd (g : String) : ℕ :=
  if g = "A+ (Excellent)" then 5
  else if g = "A (Very High)" then 4
  else if g = "B (High)" then 3
  else if g = "C (Moderate)" then 2
  else if g = "D (Low)" then 1
  else 0

end

end ValidationEngine

namespace ValidationEngine

lemma positives_pos : ∀ (xs : List ℝ), ∀ x ∈ positives xs, 0 < x := by
  intro xs
  induction xs with
  | nil => intro x hx; simp [positives] at hx
  | cons a as ih =>
    intro x hx
    simp only [positives] at hx
    split at hx
    · rcases List.mem_cons.mp hx with h | h
      · subst h; assumption
      · exact ih x h
    · exact ih x hx

lemma sum_pos_of_pos {xs : List ℝ} (h : ∀ x ∈ xs, 0 < x) (hne : xs ≠ []) :
    0 < xs.sum := by
  cases xs with
  | nil => exact absurd rfl hne
  | cons a as =>
    have hs : 0 ≤ as.sum :=
      List.sum_nonneg fun x hx => le_of_lt (h x (List.mem_cons_of_mem _ hx))
    have ha := h a (List.mem_cons_self _ _)
    rw [List.sum_cons]
    linarith

lemma le_foldl_max (xs : List ℝ) : ∀ a : ℝ, a ≤ xs.foldl max a := by
  induction xs with
  | nil => intro a; simp
  | cons b bs ih =>
    intro a
    rw [List.foldl_cons]
    exact le_trans (le_max_left a b) (ih (max a b))

lemma listMax_nonneg {xs : List ℝ} (hne : xs ≠ [])
    (h : ∀ x ∈ xs, 0 ≤ x) : 0 ≤ listMax xs := by
  cases xs with
  | nil => exact absurd rfl hne
  | cons a as =>
    exact le_trans (h a (List.mem_cons_self _ _)) (le_foldl_max as a)

lemma data_coverage_bounds (df : List MonthlyRow) (sd : ScenarioInput) :
    0 ≤ data_coverage df sd ∧ data_coverage df sd ≤ 100 := by
  unfold data_coverage
  refine ⟨le_min ?_ (by norm_num), min_le_right _ _⟩
  exact mul_nonneg (div_nonneg (by positivity) (by positivity)) (by norm_num)

lemma data_consistency_bounds (df : List MonthlyRow) :
    0 ≤ data_consistency df ∧ data_consistency df ≤ 100 := by
  simp only [data_consistency]
  split
  · rename_i h
    refine ⟨le_max_left _ _, max_le (by norm_num) ?_⟩
    have hpos : ∀ x ∈ positives (df.map fun r => r.revenue), 0 < x :=
      positives_pos _
    have hne : positives (df.map fun r => r.revenue) ≠ [] := by
      intro hc
      rw [hc] at h
      simp at h
    have hmean : 0 < mean (positives (df.map fun r => r.revenue)) := by
      unfold mean
      refine div_pos (sum_pos_of_pos hpos hne) ?_
      have hl : 0 < (positives (df.map fun r => r.revenue)).length :=
        List.length_pos.mpr hne
      exact_mod_cast hl
    have hstd : 0 ≤ npStd (positives (df.map fun r => r.revenue)) :=
      Real.sqrt_nonneg _
    have hq : 0 ≤ npStd (positives (df.map fun r => r.revenue)) /
        mean (positives (df.map fun r => r.revenue)) * 50 :=
      mul_nonneg (div_nonneg hstd (le_of_lt hmean)) (by norm_num)
    linarith
  · norm_num

lemma temporal_distribution_bounds (sd : ScenarioInput)
    (h : ∀ x ∈ sd.monthly_totals, 0 ≤ x) :
    0 ≤ temporal_distribution sd ∧ temporal_distribution sd ≤ 100 := by
  unfold temporal_distribution
  split
  · rename_i hlen
    split
    · norm_num
    · rename_i hsum
      refine ⟨le_max_left _ _, max_le (by norm_num) ?_⟩
      have hne : sd.monthly_totals ≠ [] := by
        intro hc
        rw [hc] at hlen
        simp at hlen
      have hs0 : 0 ≤ sd.monthly_totals.sum := List.sum_nonneg h
      have hspos : 0 < sd.monthly_totals.sum := lt_of_le_of_ne hs0 (Ne.symm hsum)
      have hmax : 0 ≤ listMax sd.monthly_totals := listMax_nonneg hne h
      have hq : 0 ≤ listMax sd.monthly_totals / sd.monthly_totals.sum * 100 :=
        mul_nonneg (div_nonneg hmax (le_of_lt hspos)) (by norm_num)
      linarith
  · norm_num

lemma project_diversity_bounds (df : List MonthlyRow) :
    0 ≤ project_diversity df ∧ project_diversity df ≤ 100 := by
  unfold project_diversity
  split
  · refine ⟨le_min ?_ (by norm_num), min_le_right _ _⟩
    exact mul_nonneg (div_nonneg (by positivity) (by positivity)) (by norm_num)
  · norm_num

lemma scenario_reasonableness_bounds (sd : ScenarioInput) :
    0 ≤ scenario_reasonableness sd ∧ scenario_reasonableness sd ≤ 100 := by
  unfold scenario_reasonableness
  split
  · rename_i h
    have habs : |1 - sd.multiplier| ≤ 1 := by
      rw [abs_le]
      constructor <;> linarith [h.1, h.2]
    have h0 : 0 ≤ |1 - sd.multiplier| := abs_nonneg _
    constructor <;> linarith
  · refine ⟨le_max_left _ _, max_le (by norm_num) ?_⟩
    have h0 : 0 ≤ |1 - sd.multiplier| := abs_nonneg _
    linarith

lemma overall_confidence_bounds (df : List MonthlyRow) (sd : ScenarioInput)
    (h : ∀ x ∈ sd.monthly_totals, 0 ≤ x) :
    0 ≤ overall_confidence df sd ∧ overall_confidence df sd ≤ 100 := by
  obtain ⟨a1, a2⟩ := data_coverage_bounds df sd
  obtain ⟨b1, b2⟩ := data_consistency_bounds df
  obtain ⟨c1, c2⟩ := temporal_distribution_bounds sd h
  obtain ⟨d1, d2⟩ := project_diversity_bounds df
  obtain ⟨e1, e2⟩ := scenario_reasonableness_bounds sd
  unfold overall_confidence
  constructor <;> linarith

lemma roundHalfEven_bounds {x : ℝ} (h0 : 0 ≤ x) (h1 : x ≤ 1000) :
    0 ≤ roundHalfEven x ∧ roundHalfEven x ≤ 1000 := by
  have hf0 : 0 ≤ ⌊x⌋ := Int.floor_nonneg.mpr h0
  have hfl : (⌊x⌋ : ℝ) ≤ x := Int.floor_le x
  have hfub : ⌊x⌋ ≤ 1000 := by exact_mod_cast le_trans hfl h1
  unfold roundHalfEven
  split
  · exact ⟨hf0, hfub⟩
  · split
    · rename_i h2 h3
      have hc : ((⌊x⌋ + 1 : ℤ) : ℝ) < 1001 := by
        push_cast
        linarith
      have : (⌊x⌋ + 1 : ℤ) < 1001 := by exact_mod_cast hc
      exact ⟨by omega, by omega⟩
    · split
      · exact ⟨hf0, hfub⟩
      · rename_i h2 h3 h4
        have hc : ((⌊x⌋ + 1 : ℤ) : ℝ) < 1001 := by
          push_cast
          linarith
        have : (⌊x⌋ + 1 : ℤ) < 1001 := by exact_mod_cast hc
        exact ⟨by omega, by omega⟩

lemma pyRound1_bounds {x : ℝ} (h0 : 0 ≤ x) (h1 : x ≤ 100) :
    0 ≤ pyRound1 x ∧ pyRound1 x ≤ 100 := by
  have h10 : 0 ≤ x * 10 := by linarith
  have h11 : x * 10 ≤ 1000 := by linarith
  obtain ⟨hz0, hz1⟩ := roundHalfEven_bounds h10 h11
  unfold pyRound1
  constructor
  · refine div_nonneg ?_ (by norm_num)
    exact_mod_cast hz0
  · rw [div_le_iff₀ (by norm_num : (0:ℝ) < 10)]
    have : ((roundHalfEven (x * 10) : ℤ) : ℝ) ≤ 1000 := by exact_mod_cast hz1
    linarith

lemma gradeOrd_grade (s : ℝ) :
    gradeOrd (get_confidence_grade s) =
      if 90 ≤ s then 5 else if 80 ≤ s then 4 else if 70 ≤ s then 3
      else if 60 ≤ s then 2 else if 50 ≤ s then 1 else 0 := by
  unfold get_confidence_grade
  split_ifs <;> simp [gradeOrd]

end ValidationEngine

namespace ValidationEngine

noncomputable section

/-- A concrete `monthly_df`: two periods, one positive and one zero
revenue, two distinct projects. -/
def cdf : List MonthlyRow :=
  [ { period := "P1", revenue := 10, project_id := "A" },
    { period := "P2", revenue := 0, project_id := "B" } ]

/-- A scenario whose `monthly_totals` mix signs: `[-2, 1]`. -/
def csd : ScenarioInput := { monthly_totals := [-2, 1], multiplier := 1 }

/-- A scenario with no monthly totals (all of them trivially
non-negative). -/
def wsd : ScenarioInput := { monthly_totals := [], multiplier := 1 }

end

lemma cdf_coverage : data_coverage cdf csd = 100 := by
  have h1 : ((cdf.map fun r => r.period).dedup.length) = 2 := by decide
  have h2 : csd.monthly_totals.length = 2 := by decide
  unfold data_coverage
  rw [h1, h2]
  norm_num

lemma cdf_consistency : data_consistency cdf = 50 := by
  have hmap : (cdf.map fun r => r.revenue) = [10, 0] := rfl
  have hpos : positives [(10:ℝ), 0] = [10] := by norm_num [positives]
  simp only [data_consistency, hmap, hpos]
  norm_num

lemma csd_temporal : temporal_distribution csd = 200 := by
  have hmt : csd.monthly_totals = [-2, 1] := rfl
  unfold temporal_distribution
  rw [hmt]
  norm_num [listMax, List.sum_cons, List.sum_nil, List.foldl]

lemma cdf_diversity : project_diversity cdf = 100 := by
  have h1 : ((cdf.map fun r => r.project_id).dedup.length) = 2 := by decide
  have h2 : cdf.length = 2 := by decide
  unfold project_diversity
  rw [h1, h2]
  norm_num

lemma csd_reasonableness : scenario_reasonableness csd = 100 := by
  have hm : csd.multiplier = 1 := rfl
  unfold scenario_reasonableness
  rw [hm]
  norm_num

lemma cex_confidence : overall_confidence cdf csd = 215 / 2 := by
  unfold overall_confidence
  rw [cdf_coverage, cdf_consistency, csd_temporal, cdf_diversity,
    csd_reasonableness]
  norm_num

lemma cex_score : overall_score cdf csd = 215 / 2 := by
  unfold overall_score
  rw [cex_confidence]
  unfold pyRound1
  have h1 : (215:ℝ) / 2 * 10 = 1075 := by norm_num
  rw [h1]
  have hf : ⌊(1075:ℝ)⌋ = 1075 := by norm_num
  have h2 : roundHalfEven 1075 = 1075 := by
    unfold roundHalfEven
    rw [hf]
    norm_num
  rw [h2]
  norm_num

end ValidationEngine

open ValidationEngine in
/-- C9 counterexample: on an input whose scenario monthly totals mix
signs (`[-2, 1]`) the scorer returns overall_score 107.5, outside [0,100]:
the max-concentration ratio is negative, inflating the temporal
distribution sub-score to 200. -/
theorem C9_counterexample :
    100 < overall_score cdf csd ∧ overall_score cdf csd = 215 / 2 :=
  ⟨by rw [cex_score]; norm_num, cex_score⟩

open ValidationEngine in
/-- C9 (amended): for every input whose scenario monthly totals are all
non-negative, overall_score lies in [0,100]; and the grade band mapping is
monotone non-decreasing in the score. -/
theorem C9_score_bounds_grade_monotone :
    (∀ (df : List MonthlyRow) (sd : ScenarioInput),
      (∀ x ∈ sd.monthly_totals, 0 ≤ x) →
      0 ≤ overall_score df sd ∧ overall_score df sd ≤ 100) ∧
    (∀ s₁ s₂ : ℝ, s₁ ≤ s₂ →
      gradeOrd (get_confidence_grade s₁) ≤
        gradeOrd (get_confidence_grade s₂)) := by
  constructor
  · intro df sd h
    obtain ⟨h0, h1⟩ := overall_confidence_bounds df sd h
    exact pyRound1_bounds h0 h1
  · intro s₁ s₂ h
    rw [gradeOrd_grade, gradeOrd_grade]
    split_ifs <;> try norm_num
    all_goals linarith

open ValidationEngine in
/-- Witness for C9 on a concrete input with non-negative monthly totals
and on the concrete score pair 55 ≤ 75. -/
theorem C9_score_bounds_grade_monotone_witness :
    (0 ≤ overall_score cdf wsd ∧ overall_score cdf wsd ≤ 100) ∧
    gradeOrd (get_confidence_grade 55) ≤ gradeOrd (get_confidence_grade 75) :=
  ⟨C9_score_bounds_grade_monotone.1 cdf wsd
      (by intro x hx; simp [wsd] at hx),
    C9_score_bounds_grade_monotone.2 55 75 (by norm_num)⟩
